import Mathlib

/-
Verification of the region/representation model of src/ui.py
(Pegasus-Skin-Editor). The tkinter canvas is embedded shallowly: each
canvas image item is a rectangle (position of its north-west anchor plus
the PIL image size), `Canvas.bbox` of such an item is the exact bounding
box (x1, y1, x2, y2) = (x, y, x + w, y + h), and the host text sink
`master.cur_selected` is a string field of the representation state.
Python runtime errors (AttributeError on None, KeyError, IndexError) are
modelled by `Option`/`Except` results.
-/

namespace SkinEditor

/-- A canvas image item: north-west anchor position and image size, in the
canvas coordinate space. Sizes are `Int` because the code never validates
them (PIL is abstracted to its size effect). -/
structure Rect where
  x : Int
  y : Int
  w : Int
  h : Int
deriving DecidableEq, Repr

/-- Canvas.bbox of an image item with anchor "nw": (x1, y1, x2, y2). -/
def Rect.bbox (r : Rect) : Int × Int × Int × Int :=
  (r.x, r.y, r.x + r.w, r.y + r.h)

/-- Translation of a canvas item, as done by `Canvas.move`. -/
def Rect.translate (r : Rect) (dx dy : Int) : Rect :=
  { r with x := r.x + dx, y := r.y + dy }

/-- Python dict whose keys are strings and whose values are ints, as an
association list in insertion order; lookup takes the first matching key. -/
abbrev Dict := List (String × Int)

/-- Python dict whose keys and values are strings. -/
abbrev StrDict := List (String × String)

/-- Left-biased choice on options, used to state lookup lemmas. -/
def dOr (a b : Option Int) : Option Int :=
  match a with
  | some v => some v
  | none => b

/-- The input bindings of a region: the "inputs" value of its item config,
which is a dict (direction to input name), a list of names, or one name. -/
inductive Inputs where
  | dict (d : StrDict)
  | list (l : List String)
  | str (s : String)
deriving DecidableEq, Repr

/-- State of one Region (src/ui.py class Region): its input bindings and
its two canvas items, the core ("touch") rectangle `_t` and the extended
rectangle `_e`. -/
structure Region where
  inputs : Inputs
  core : Rect
  ext : Rect
deriving DecidableEq, Repr

/-- Region.move (src/ui.py lines 55-57): translates both canvas items by
the same delta. -/
def Region.move (r : Region) (dx dy : Int) : Region :=
  { r with ext := r.ext.translate dx dy, core := r.core.translate dx dy }

/-- The resize step applied to one canvas item (src/ui.py lines 60-69 for
`_e`, 74-83 for `_t`): read the item bounding box, take w = x2 - x1 and
h = y2 - y1, resize the image to (w + delta_w, h + delta_h) and re-create
the item at (x1, y1). Registry pop/update of the item id is identity in
this embedding since items are stored per region. -/
def resizeItem (r : Rect) (dw dh : Int) : Rect :=
  match Rect.bbox r with
  | (x1, y1, x2, y2) => { x := x1, y := y1, w := (x2 - x1) + dw, h := (y2 - y1) + dh }

/-- Region.resize (src/ui.py lines 59-85). `which` is the third Python
parameter (default `True` at call sites): the extended item is always
resized, the core item only when `which` holds. -/
def Region.resize (r : Region) (dw dh : Int) (which : Bool) : Region :=
  let r1 := { r with ext := resizeItem r.ext dw dh }
  if which then { r1 with core := resizeItem r1.core dw dh } else r1

/-- Region construction geometry (src/ui.py lines 25-27 and 42-50): the
core item at frame (x, y) with the frame size, the extended item at
(x - left, y - top) sized (left + w + right, top + h + bottom). -/
def Region.make (inputs : Inputs) (x y w h top bottom left right : Int) : Region :=
  { inputs := inputs
    core := { x := x, y := y, w := w, h := h }
    ext := { x := x - left, y := y - top, w := left + w + right, h := top + h + bottom } }

/-- The extended-edges dict a region reads its margins from: either the
representation default dict itself (the `else` branch of src/ui.py line 35
binds the very same dict object), or the dict owned by the item config. -/
inductive ExtEdges where
  | shared
  | own (d : Dict)
deriving DecidableEq, Repr

/-- One iteration of the margin-fill loop (src/ui.py lines 31-33): if the
default key is absent from the override dict, insert it with the default
value (a Python dict setitem of a fresh key appends in insertion order). -/
def fillStep (acc : Dict) (kv : String × Int) : Dict :=
  if (List.lookup kv.1 acc).isNone then acc ++ [kv] else acc

/-- The margin-fill loop of Region.__init__ (src/ui.py lines 31-33),
iterating over the representation default dict keys in insertion order. -/
def fillEdges (repEdges ov : Dict) : Dict :=
  repEdges.foldl fillStep ov

/-- Extended-edges part of Region.__init__ (src/ui.py lines 29-35): when
the item config has an "extendedEdges" dict, the region binds that dict
and fills missing edges in place, so the second component returns the item
config mapping after construction (the same, mutated dict); otherwise the
region binds the representation default dict and the config keeps no
"extendedEdges" entry. -/
def Region.initExtEdges (repEdges : Dict) (cfgEdges : Option Dict) :
    ExtEdges × Option Dict :=
  match cfgEdges with
  | some d =>
    let filled := fillEdges repEdges d
    (ExtEdges.own filled, some filled)
  | none => (ExtEdges.shared, none)

/-- Reading one key of the resolved extended edges (src/ui.py lines 37-40
read the four keys); `none` is a Python KeyError. -/
def ExtEdges.read (repEdges : Dict) (e : ExtEdges) (k : String) : Option Int :=
  match e with
  | ExtEdges.shared => List.lookup k repEdges
  | ExtEdges.own d => List.lookup k d

/-- Representation default margins are a dict with all four edge keys
(src/ui.py requires them at lines 37-40). -/
def defaultsDict (top bottom left right : Int) : Dict :=
  [("top", top), ("bottom", bottom), ("left", left), ("right", right)]

/-- The single-quote character as a string, to build Python literals. -/
def sq : String := String.singleton (Char.ofNat 39)

/-- Python str.capitalize: first character uppercased, the rest lowercased. -/
def pyCapitalize (s : String) : String :=
  match s.data with
  | [] => ""
  | c :: cs => String.mk (Char.toUpper c :: cs.map Char.toLower)

/-- Python dict equality for string-to-string dicts: same keys, same
values, independent of insertion order. -/
def StrDict.eqv (a b : StrDict) : Bool :=
  a.all (fun kv => List.lookup kv.1 b == some kv.2) &&
  b.all (fun kv => List.lookup kv.1 a == some kv.2)

/-- Python repr of a string-to-string dict, produced when an unrecognized
dict of bindings is formatted into the status line. -/
def pyDictRepr (d : StrDict) : String :=
  "\x7b" ++
    String.intercalate (", ")
      (d.map (fun kv => sq ++ kv.1 ++ sq ++ ": " ++ sq ++ kv.2 ++ sq)) ++
  "\x7d"

/-- The BUTTON_NAMES table (src/ui.py lines 10-15), in insertion order. -/
def BUTTON_NAMES : List (String × StrDict) :=
  [("Analog Stick",
     [("up", "analogStickUp"), ("down", "analogStickDown"),
      ("left", "analogStickLeft"), ("right", "analogStickRight")]),
   ("D-Pad",
     [("up", "up"), ("down", "down"), ("left", "left"), ("right", "right")]),
   ("Touch Screen", [("x", "touchScreenX"), ("y", "touchScreenY")])]

/-- Python equality between an inputs value and a BUTTON_NAMES dict: only
a dict can compare equal to a dict. -/
def Inputs.eqDict (i : Inputs) (v : StrDict) : Bool :=
  match i with
  | Inputs.dict d => StrDict.eqv v d
  | _ => false

/-- Status-label resolution (src/ui.py lines 157-166): the first
BUTTON_NAMES entry whose dict equals the bindings gives the group name;
otherwise a list of names is joined with ", " after capitalizing each (a
single name is capitalized alone, an empty list raises IndexError, giving
`none`); otherwise the scalar value is used as-is (a dict that matched no
group is formatted by the f-string as its repr). -/
def statusLabel (inputs : Inputs) : Option String :=
  match BUTTON_NAMES.find? (fun kv => inputs.eqDict kv.2) with
  | some kv => some kv.1
  | none =>
    match inputs with
    | Inputs.list l =>
      if l.length > 1 then
        some (String.intercalate (", ") (l.map pyCapitalize))
      else
        match l with
        | [] => none
        | x :: _ => some (pyCapitalize x)
    | Inputs.str s => some s
    | Inputs.dict d => some (pyDictRepr d)

/-- The status line f-string (src/ui.py line 169). -/
def statusLine (key : String) (x1 y1 w h : Int) : String :=
  key ++ " | X: " ++ toString x1 ++ " Y: " ++ toString y1 ++
    " | W: " ++ toString w ++ " H: " ++ toString h

/-- A handler bound to the four arrow keys. `resizeExtended` is referenced
at src/ui.py line 181. -/
inductive ArrowHandler where
  | moveRegion
  | resizeRegion
  | resizeExtended
deriving DecidableEq, Repr

/-- State of the Representation controller (src/ui.py class
Representation): the region list, `selected` as an index into it,
`_sel` as the hit canvas item resolved to (owner index, is-extended),
`selected_data` as the drag anchor, the current arrow-key bindings in
firing order, and the host text sink `master.cur_selected`. -/
structure Representation where
  regions : List Region
  selected : Option Nat
  sel : Option (Nat × Bool)
  selectedData : Int × Int
  arrowBindings : List ArrowHandler
  statusText : String
deriving DecidableEq, Repr

/-- The arrow-key bindings installed at construction (src/ui.py lines
152-154): move_region, then resize_region added with "+". -/
def initialArrowBindings : List ArrowHandler :=
  [ArrowHandler.moveRegion, ArrowHandler.resizeRegion]

/-- List update at an index, for mutating the selected region in place. -/
def modifyAt {α : Type} (l : List α) (i : Nat) (f : α → α) : List α :=
  match l, i with
  | [], _ => []
  | x :: xs, 0 => f x :: xs
  | x :: xs, n + 1 => x :: modifyAt xs n f

theorem modifyAt_getElem {α : Type} (l : List α) (i j : Nat) (f : α → α) :
    (modifyAt l i f)[j]? = if j = i then (l[j]?).map f else l[j]? := by
  induction l generalizing i j with
  | nil => simp [modifyAt]
  | cons x xs ih =>
    cases i with
    | zero => cases j <;> simp [modifyAt]
    | succ n =>
      cases j with
      | zero => simp [modifyAt]
      | succ m => simp [modifyAt, ih n m]

/-- statusbar_updater (src/ui.py lines 156-169): resolve the label from
the selected region bindings, read the bounding box of the hit item, and
publish the formatted line to the host text sink. `none` models the
AttributeError/TclError raised when nothing is selected or the label
resolution raises. -/
def Representation.statusbar_updater (st : Representation) : Option Representation :=
  match st.selected with
  | none => none
  | some i =>
    match st.regions[i]? with
    | none => none
    | some r =>
      match statusLabel r.inputs with
      | none => none
      | some key =>
        match st.sel with
        | none => none
        | some ji =>
          match st.regions[ji.1]? with
          | none => none
          | some rj =>
            let rect := if ji.2 then rj.ext else rj.core
            match Rect.bbox rect with
            | (x1, y1, x2, y2) =>
              some { st with statusText := statusLine key x1 y1 (x2 - x1) (y2 - y1) }

/-- Result of the hit test at the pointer position (src/ui.py lines
172-177): find_closest plus the "nodrag" tag check and the registry
lookup, abstracted to the background or a region item (core or extended). -/
inductive Hit where
  | background
  | region (i : Nat) (isExt : Bool)
deriving DecidableEq, Repr

/-- select_region (src/ui.py lines 171-189): ignore hits on the tagged
background; otherwise record the hit item and owning region, rebind the
four arrow keys (extended-only resize when the extended item was hit, move
plus resize otherwise), record the drag anchor, and update the status. -/
def Representation.select_region (st : Representation) (hit : Hit)
    (ex ey : Int) : Option Representation :=
  match hit with
  | Hit.background => some st
  | Hit.region i isExt =>
    let st1 := { st with
      sel := some (i, isExt)
      selected := some i
      arrowBindings :=
        if isExt then [ArrowHandler.resizeExtended]
        else [ArrowHandler.moveRegion, ArrowHandler.resizeRegion]
      selectedData := (ex, ey) }
    Representation.statusbar_updater st1

/-- deselect_region (src/ui.py lines 191-196): no-op when nothing is
selected; otherwise clear `selected` and `_sel` and publish empty status
text. The drag anchor `selected_data` is not touched. -/
def Representation.deselect_region (st : Representation) : Representation :=
  match st.selected with
  | none => st
  | some _ => { st with selected := none, sel := none, statusText := "" }

/-- drag (src/ui.py lines 198-206): compute the delta from the drag
anchor, move the selected region, update the anchor, update the status.
There is no selection guard: with nothing selected the attribute access
`self.selected.move` raises AttributeError, modelled by `none`. -/
def Representation.drag (st : Representation) (ex ey : Int) : Option Representation :=
  let dx := ex - st.selectedData.1
  let dy := ey - st.selectedData.2
  match st.selected with
  | none => none
  | some i =>
    let st1 := { st with regions := modifyAt st.regions i (fun r => Region.move r dx dy) }
    let st2 := { st1 with selectedData := (ex, ey) }
    Representation.statusbar_updater st2

/-- drag_stop (src/ui.py lines 208-209): reset the drag anchor to (0, 0);
the selection is kept. -/
def Representation.drag_stop (st : Representation) : Representation :=
  { st with selectedData := (0, 0) }

/-- A keyboard event: keysym string and modifier-state mask. -/
structure KeyEvent where
  keysym : String
  state : Nat
deriving DecidableEq, Repr

/-- move_region (src/ui.py lines 211-223): with nothing selected, return;
otherwise move by one pixel for a plain arrow (modifier bit 0 clear), then
republish the status unconditionally. -/
def Representation.move_region (st : Representation) (ev : KeyEvent) :
    Option Representation :=
  match st.selected with
  | none => some st
  | some i =>
    let st1 :=
      if ev.keysym = ("Right") ∧ ev.state &&& 1 = 0 then
        { st with regions := modifyAt st.regions i (fun r => Region.move r 1 0) }
      else if ev.keysym = ("Left") ∧ ev.state &&& 1 = 0 then
        { st with regions := modifyAt st.regions i (fun r => Region.move r (-1) 0) }
      else if ev.keysym = ("Up") ∧ ev.state &&& 1 = 0 then
        { st with regions := modifyAt st.regions i (fun r => Region.move r 0 (-1)) }
      else if ev.keysym = ("Down") ∧ ev.state &&& 1 = 0 then
        { st with regions := modifyAt st.regions i (fun r => Region.move r 0 1) }
      else st
    Representation.statusbar_updater st1

/-- resize_region (src/ui.py lines 225-235): with nothing selected,
return; otherwise resize by one pixel for a modifier-held arrow (bit 0 of
the state mask set), with the Python-default `which = true`. No status
update happens here. -/
def Representation.resize_region (st : Representation) (ev : KeyEvent) :
    Option Representation :=
  match st.selected with
  | none => some st
  | some i =>
    some
      (if ev.keysym = ("Right") ∧ ¬ ev.state &&& 1 = 0 then
        { st with regions := modifyAt st.regions i (fun r => Region.resize r 1 0 true) }
      else if ev.keysym = ("Left") ∧ ¬ ev.state &&& 1 = 0 then
        { st with regions := modifyAt st.regions i (fun r => Region.resize r (-1) 0 true) }
      else if ev.keysym = ("Up") ∧ ¬ ev.state &&& 1 = 0 then
        { st with regions := modifyAt st.regions i (fun r => Region.resize r 0 (-1) true) }
      else if ev.keysym = ("Down") ∧ ¬ ev.state &&& 1 = 0 then
        { st with regions := modifyAt st.regions i (fun r => Region.resize r 0 1 true) }
      else st)

/-- Modelled from the spec: the handler `resize_extended` is bound in
select_region (src/ui.py line 181) but its definition is missing from the
source. Per the spec it is the extended-only resize handler: it routes
each arrow press to `resize(dx, dy, affectCore=false)` on the selected
region, no-ops with nothing selected, and republishes the status text
after the resize, as the spec requires of every keyboard move or resize. -/
def Representation.resize_extended (st : Representation) (ev : KeyEvent) :
    Option Representation :=
  match st.selected with
  | none => some st
  | some i =>
    let st1 :=
      if ev.keysym = ("Right") then
        { st with regions := modifyAt st.regions i (fun r => Region.resize r 1 0 false) }
      else if ev.keysym = ("Left") then
        { st with regions := modifyAt st.regions i (fun r => Region.resize r (-1) 0 false) }
      else if ev.keysym = ("Up") then
        { st with regions := modifyAt st.regions i (fun r => Region.resize r 0 (-1) false) }
      else if ev.keysym = ("Down") then
        { st with regions := modifyAt st.regions i (fun r => Region.resize r 0 1 false) }
      else st
    Representation.statusbar_updater st1

/-- Dispatch of one bound handler. -/
def applyArrowHandler (h : ArrowHandler) (st : Representation) (ev : KeyEvent) :
    Option Representation :=
  match h with
  | ArrowHandler.moveRegion => Representation.move_region st ev
  | ArrowHandler.resizeRegion => Representation.resize_region st ev
  | ArrowHandler.resizeExtended => Representation.resize_extended st ev

/-- Run the handler scripts bound to a key in firing order (tk runs the
scripts of a binding in sequence and stops on an error). -/
def runHandlers (hs : List ArrowHandler) (st : Representation) (ev : KeyEvent) :
    Option Representation :=
  match hs with
  | [] => some st
  | h :: rest =>
    match applyArrowHandler h st ev with
    | none => none
    | some st1 => runHandlers rest st1 ev

/-- Delivery of one arrow-key event to the currently bound handlers. -/
def handleArrow (st : Representation) (ev : KeyEvent) : Option Representation :=
  runHandlers st.arrowBindings st ev

/-- Outcome of the background-image loading attempt (src/ui.py lines
125-135): the asset loader, archive reads and the renderer are external,
so the try block is abstracted to which exception, if any, it raises. -/
inductive LoadError where
  | keyError
  | pdfPageCountError
deriving DecidableEq, Repr

/-- Error handling of Representation.__init__ (src/ui.py lines 125-140):
a KeyError or PDFPageCountError from the loading attempt is turned into a
fatal SystemExit with a fixed message (sq is the apostrophe); any other
path proceeds. There is no retry. -/
def Representation.initBackground (outcome : Except LoadError Unit) :
    Except String Unit :=
  match outcome with
  | Except.ok u => Except.ok u
  | Except.error LoadError.keyError =>
    Except.error ("Couldn" ++ sq ++ "t get the correct key!")
  | Except.error LoadError.pdfPageCountError =>
    Except.error ("Couldn" ++ sq ++ "t get PDF information! Check your Poppler version.")

/-- The per-axis one-pixel delta the keyboard handlers apply for each
arrow keysym, used to state their behavior uniformly. -/
def arrowDelta (ks : String) : Int × Int :=
  if ks = ("Right") then (1, 0)
  else if ks = ("Left") then (-1, 0)
  else if ks = ("Up") then (0, -1)
  else if ks = ("Down") then (0, 1)
  else (0, 0)

/-- The status text statusbar_updater publishes for a label and the exact
bounding box of a hit item. -/
def statusTextFor (key : String) (rect : Rect) : String :=
  statusLine key rect.x rect.y rect.w rect.h

/-- The keysym is one of the four bound arrow keys (src/ui.py line 152). -/
def isArrowKeysym (ks : String) : Prop :=
  ks = ("Right") ∨ ks = ("Left") ∨ ks = ("Up") ∨ ks = ("Down")

/-- The state with the region list replaced, to state handler effects. -/
def withRegions (st : Representation) (rs : List Region) : Representation :=
  { st with regions := rs }

/-- The region of the given index translated by one arrow step. -/
def movedAt (st : Representation) (i : Nat) (ks : String) : List Region :=
  modifyAt st.regions i (fun r0 => Region.move r0 (arrowDelta ks).1 (arrowDelta ks).2)

/-- The region of the given index resized by one arrow step, with or
without the core rectangle. -/
def resizedAt (st : Representation) (i : Nat) (ks : String) (which : Bool) : List Region :=
  modifyAt st.regions i
    (fun r0 => Region.resize r0 (arrowDelta ks).1 (arrowDelta ks).2 which)

/-- A concrete region used by witnesses: inputs ["a"], frame
(10, 10, 20, 20), margins 2 on every edge. -/
def regionA : Region :=
  Region.make (Inputs.list [("a")]) 10 10 20 20 2 2 2 2

/-- A concrete controller state with nothing selected, as left by
construction or by a click on the background. -/
def stNoSelection : Representation :=
  { regions := [regionA]
    selected := none
    sel := none
    selectedData := (0, 0)
    arrowBindings := initialArrowBindings
    statusText := "" }

/-- A concrete controller state with region 0 selected through its core
item and a nonzero drag anchor. -/
def stCoreSelected : Representation :=
  { regions := [regionA]
    selected := some 0
    sel := some (0, false)
    selectedData := (5, 7)
    arrowBindings := initialArrowBindings
    statusText := "" }

theorem dOr_none (a : Option Int) : dOr a none = a := by
  cases a <;> rfl

theorem lookup_append (k : String) (l1 l2 : Dict) :
    List.lookup k (l1 ++ l2) = dOr (List.lookup k l1) (List.lookup k l2) := by
  induction l1 with
  | nil => simp [dOr]
  | cons kv rest ih =>
    cases hkv : k == kv.1
    · simp [List.lookup, hkv, ih]
    · simp [List.lookup, hkv, dOr]

theorem lookup_fillEdges (repEdges ov : Dict) (k : String) :
    List.lookup k (fillEdges repEdges ov) =
      dOr (List.lookup k ov) (List.lookup k repEdges) := by
  induction repEdges generalizing ov with
  | nil => simp [fillEdges, dOr_none]
  | cons kv rest ih =>
    show List.lookup k (fillEdges rest (fillStep ov kv)) = _
    rw [ih]
    cases hkv : k == kv.1
    · have hk : k ≠ kv.1 := fun h => by simp [h] at hkv
      cases h : List.lookup kv.1 ov with
      | none =>
        simp [fillStep, h, lookup_append, List.lookup, hkv, dOr_none]
      | some v =>
        simp [fillStep, h, List.lookup, hkv]
    · have hk : k = kv.1 := by simpa using hkv
      cases h : List.lookup k ov with
      | none =>
        have h2 : List.lookup kv.1 ov = none := hk ▸ h
        simp [fillStep, h2, lookup_append, List.lookup, h, hkv, dOr]
      | some v =>
        have h2 : List.lookup kv.1 ov = some v := hk ▸ h
        simp [fillStep, h2, List.lookup, h, hkv, dOr]

/-- Claim C2: for a Region constructed with a partial extendedEdges
override, each of the four edges named in the override resolves to the
override value, each edge absent from the override resolves to the
representation default for that edge, and a Region with no override
inherits all four defaults. -/
theorem extendedEdges_resolution (top bottom left right : Int) (ov : Dict)
    (k : String) (hk : k ∈ [("top" : String), "bottom", "left", "right"]) :
    (∀ v : Int, List.lookup k ov = some v →
      ExtEdges.read (defaultsDict top bottom left right)
        (Region.initExtEdges (defaultsDict top bottom left right) (some ov)).1 k = some v) ∧
    (List.lookup k ov = none →
      ExtEdges.read (defaultsDict top bottom left right)
        (Region.initExtEdges (defaultsDict top bottom left right) (some ov)).1 k =
        List.lookup k (defaultsDict top bottom left right)) ∧
    ExtEdges.read (defaultsDict top bottom left right)
      (Region.initExtEdges (defaultsDict top bottom left right) none).1 k =
      List.lookup k (defaultsDict top bottom left right) := by
  refine ⟨?_, ?_, ?_⟩
  · intro v hv
    simp [Region.initExtEdges, ExtEdges.read, lookup_fillEdges, hv, dOr]
  · intro hv
    simp [Region.initExtEdges, ExtEdges.read, lookup_fillEdges, hv, dOr]
  · simp [Region.initExtEdges, ExtEdges.read]

/-- Witness for C2 at a concrete input: defaults 1/2/3/4, override binding
only "top" to 9; "top" resolves to 9 and "left" resolves to the default 3. -/
theorem extendedEdges_resolution_witness :
    ExtEdges.read (defaultsDict 1 2 3 4)
      (Region.initExtEdges (defaultsDict 1 2 3 4) (some [("top", 9)])).1 ("top") = some 9 ∧
    ExtEdges.read (defaultsDict 1 2 3 4)
      (Region.initExtEdges (defaultsDict 1 2 3 4) (some [("top", 9)])).1 ("left") =
      List.lookup ("left") (defaultsDict 1 2 3 4) :=
  ⟨(extendedEdges_resolution 1 2 3 4 [("top", 9)] ("top") (by decide)).1 9 (by decide),
   (extendedEdges_resolution 1 2 3 4 [("top", 9)] ("left") (by decide)).2.1 (by decide)⟩

/-- Claim C10: construction with a partial extendedEdges override mutates
the supplied item config in place: the region binds the very dict stored
back in the config, every inherited default edge is inserted into that
mapping, and construction with no override leaves the region sharing the
representation default dict instead of copying it. -/
theorem region_init_mutation (top bottom left right : Int) (ov : Dict) :
    (∃ d : Dict,
      Region.initExtEdges (defaultsDict top bottom left right) (some ov) =
        (ExtEdges.own d, some d) ∧
      (∀ k : String, k ∈ [("top" : String), "bottom", "left", "right"] →
        List.lookup k ov = none →
        List.lookup k d = List.lookup k (defaultsDict top bottom left right))) ∧
    Region.initExtEdges (defaultsDict top bottom left right) none =
      (ExtEdges.shared, none) := by
  refine ⟨⟨fillEdges (defaultsDict top bottom left right) ov, rfl, ?_⟩, rfl⟩
  intro k hk hnone
  simp [lookup_fillEdges, hnone, dOr]

/-- Witness for C10 at a concrete input: defaults 1/2/3/4 and an override
binding only "top"; the absent "bottom" edge is inserted with value 2. -/
theorem region_init_mutation_witness :
    ∃ d : Dict,
      Region.initExtEdges (defaultsDict 1 2 3 4) (some [("top", 9)]) =
        (ExtEdges.own d, some d) ∧
      List.lookup ("bottom") d = List.lookup ("bottom") (defaultsDict 1 2 3 4) := by
  obtain ⟨⟨d, hd, hins⟩, -⟩ := region_init_mutation 1 2 3 4 [("top", 9)]
  exact ⟨d, hd, hins ("bottom") (by decide) (by decide)⟩

/-- Claim C1: for every Region and all integer deltas a, b, c, d, resizing
by (a, b) and then by (c, d) yields the same final extended-rectangle
width and height as the single call resize(a + c, b + d), for any values
of the `which` flags, because each resize re-derives the size from the
current bounding box of the extended item. -/
theorem resize_compose (r : Region) (a b c d : Int) (w1 w2 w3 : Bool) :
    ((r.resize a b w1).resize c d w2).ext.w = (r.resize (a + c) (b + d) w3).ext.w ∧
    ((r.resize a b w1).resize c d w2).ext.h = (r.resize (a + c) (b + d) w3).ext.h := by
  cases w1 <;> cases w2 <;> cases w3 <;>
    simp [Region.resize, resizeItem, Rect.bbox] <;> ring_nf <;> constructor <;> ring

/-- Claim C4: resize performs no size validation or clamping. Even when the
resulting extended width or height is zero or negative, the call returns
normally and the new size is exactly the old size plus the delta. -/
theorem resize_accepts_degenerate (r : Region) (dw dh : Int) (which : Bool)
    (hdeg : r.ext.w + dw ≤ 0 ∨ r.ext.h + dh ≤ 0) :
    (r.resize dw dh which).ext.w = r.ext.w + dw ∧
    (r.resize dw dh which).ext.h = r.ext.h + dh := by
  cases which <;> simp [Region.resize, resizeItem, Rect.bbox] <;> constructor <;> ring

/-- Witness for C4 at a concrete degenerate input: a 24-by-24 extended
rectangle shrunk by 30 in width ends at width -6 with no error. -/
theorem resize_accepts_degenerate_witness :
    ((Region.make (Inputs.str ("a")) 10 10 20 20 2 2 2 2).resize (-30) 0 true).ext.w = 24 + (-30) ∧
    ((Region.make (Inputs.str ("a")) 10 10 20 20 2 2 2 2).resize (-30) 0 true).ext.h = 24 + 0 :=
  resize_accepts_degenerate (Region.make (Inputs.str ("a")) 10 10 20 20 2 2 2 2) (-30) 0 true
    (Or.inl (by decide))

theorem runHandlers_single (h : ArrowHandler) (st : Representation) (ev : KeyEvent) :
    runHandlers [h] st ev = applyArrowHandler h st ev := by
  cases ha : applyArrowHandler h st ev <;> simp [runHandlers, ha]

theorem runHandlers_pair (h1 h2 : ArrowHandler) (st : Representation) (ev : KeyEvent) :
    runHandlers [h1, h2] st ev =
      match applyArrowHandler h1 st ev with
      | none => none
      | some st1 => applyArrowHandler h2 st1 ev := by
  cases ha : applyArrowHandler h1 st ev with
  | none => simp [runHandlers, ha]
  | some st1 =>
    cases hb : applyArrowHandler h2 st1 ev <;> simp [runHandlers, ha, hb]

theorem move_inputs (r : Region) (dx dy : Int) :
    (Region.move r dx dy).inputs = r.inputs := rfl

theorem resize_false_core (r : Region) (dw dh : Int) :
    (Region.resize r dw dh false).core = r.core := rfl

theorem modifyAt_core_preserved (l : List Region) (i j : Nat) (f : Region → Region)
    (hf : ∀ r : Region, (f r).core = r.core) (rj : Region) (h : l[j]? = some rj) :
    ∃ rj2 : Region, (modifyAt l i f)[j]? = some rj2 ∧ rj2.core = rj.core := by
  rw [modifyAt_getElem]
  by_cases hj : j = i
  · subst hj
    exact ⟨f rj, by simp [h], hf rj⟩
  · exact ⟨rj, by simp [hj, h], rfl⟩

theorem statusbar_spec (st : Representation) (i : Nat) (r : Region) (L : String)
    (j : Nat) (b : Bool) (rj : Region)
    (hi : st.selected = some i) (hr : st.regions[i]? = some r)
    (hl : statusLabel r.inputs = some L)
    (hp : st.sel = some (j, b)) (hj : st.regions[j]? = some rj) :
    Representation.statusbar_updater st =
      some { st with statusText := statusTextFor L (if b then rj.ext else rj.core) } := by
  cases b <;>
    simp [Representation.statusbar_updater, hi, hr, hl, hp, hj, Rect.bbox,
      statusTextFor, statusLine, add_sub_cancel_left]

theorem statusbar_shape (st : Representation) :
    Representation.statusbar_updater st = none ∨
    ∃ t : String, Representation.statusbar_updater st = some { st with statusText := t } := by
  unfold Representation.statusbar_updater
  cases h1 : st.selected with
  | none => exact Or.inl rfl
  | some i =>
    dsimp only
    cases h2 : st.regions[i]? with
    | none => exact Or.inl rfl
    | some r =>
      dsimp only
      cases h3 : statusLabel r.inputs with
      | none => exact Or.inl rfl
      | some key =>
        dsimp only
        cases h4 : st.sel with
        | none => exact Or.inl rfl
        | some ji =>
          dsimp only
          cases h5 : st.regions[ji.1]? with
          | none => exact Or.inl rfl
          | some rj =>
            exact Or.inr ⟨statusLine key (if ji.2 then rj.ext else rj.core).x
              (if ji.2 then rj.ext else rj.core).y
              (((if ji.2 then rj.ext else rj.core).x + (if ji.2 then rj.ext else rj.core).w) -
                (if ji.2 then rj.ext else rj.core).x)
              (((if ji.2 then rj.ext else rj.core).y + (if ji.2 then rj.ext else rj.core).h) -
                (if ji.2 then rj.ext else rj.core).y), rfl⟩

theorem statusbar_fields (st st2 : Representation)
    (h : Representation.statusbar_updater st = some st2) :
    st2.regions = st.regions ∧ st2.selected = st.selected ∧ st2.sel = st.sel ∧
    st2.selectedData = st.selectedData ∧ st2.arrowBindings = st.arrowBindings := by
  rcases statusbar_shape st with hn | ⟨t, ht⟩
  · rw [hn] at h
    exact Option.noConfusion h
  · rw [ht] at h
    injection h with h2
    subst h2
    exact ⟨rfl, rfl, rfl, rfl, rfl⟩

/-- Claim C5 is violated by the code (code bug): drag (src/ui.py lines
198-206) has no selection guard, unlike move_region and resize_region, so
a pointer-motion event delivered with nothing selected (reachable: a press
on the background leaves `selected` at None and motion events still fire)
dereferences `self.selected.move` on None and raises AttributeError
instead of being a silent no-op. The theorem evaluates the handlers at the
failing input: drag errors where the guarded keyboard handlers return the
state unchanged. -/
theorem drag_no_selection_errors :
    Representation.drag stNoSelection 3 4 = none ∧
    Representation.move_region stNoSelection (KeyEvent.mk ("Right") 0) =
      some stNoSelection ∧
    Representation.resize_region stNoSelection (KeyEvent.mk ("Right") 1) =
      some stNoSelection :=
  ⟨rfl, rfl, rfl⟩

/-- Counterexample to claim C6: in a state with region 0 selected and the
drag anchor at (5, 7), deselect leaves the drag anchor at (5, 7) instead
of clearing it. -/
theorem deselect_keeps_anchor_cex :
    stCoreSelected.selected = some 0 ∧
    (Representation.deselect_region stCoreSelected).selectedData = (5, 7) ∧
    ((5, 7) : Int × Int) ≠ (0, 0) :=
  ⟨rfl, rfl, by decide⟩

/-- Claim C6 as amended: deselect with a Region selected clears the
selection to none, clears the recorded hit item, and publishes empty
status text, while the drag anchor is left unchanged; deselect with
nothing selected is a no-op; deselect is idempotent regardless of prior
state. -/
theorem deselect_amended (st : Representation) :
    (st.selected = none → Representation.deselect_region st = st) ∧
    (∀ i : Nat, st.selected = some i →
      (Representation.deselect_region st).selected = none ∧
      (Representation.deselect_region st).sel = none ∧
      (Representation.deselect_region st).statusText = "" ∧
      (Representation.deselect_region st).selectedData = st.selectedData ∧
      (Representation.deselect_region st).regions = st.regions) ∧
    Representation.deselect_region (Representation.deselect_region st) =
      Representation.deselect_region st := by
  refine ⟨fun h => ?_, fun i h => ?_, ?_⟩
  · simp [Representation.deselect_region, h]
  · simp [Representation.deselect_region, h]
  · cases h : st.selected <;> simp [Representation.deselect_region, h]

/-- Witness for C6 as amended, at the concrete selected state: selection
cleared, empty status text, drag anchor untouched. -/
theorem deselect_amended_witness :
    (Representation.deselect_region stCoreSelected).selected = none ∧
    (Representation.deselect_region stCoreSelected).statusText = "" ∧
    (Representation.deselect_region stCoreSelected).selectedData =
      stCoreSelected.selectedData := by
  obtain ⟨h1, h2, h3, h4, h5⟩ := (deselect_amended stCoreSelected).2.1 0 rfl
  exact ⟨h1, h3, h4⟩

/-- Counterexample to claim C7: the decode failure message raised by the
code (src/ui.py line 140) says "Check your Poppler version.", not
"Check your renderer version." as the claim states. -/
theorem pdf_message_cex :
    Representation.initBackground (Except.error LoadError.pdfPageCountError) =
      Except.error ("Couldn" ++ sq ++ "t get PDF information! Check your Poppler version.") ∧
    ("Couldn" ++ sq ++ "t get PDF information! Check your Poppler version.") ≠
      ("Couldn" ++ sq ++ "t get PDF information! Check your renderer version.") :=
  ⟨rfl, by decide⟩

/-- Claim C7 as amended: construction fails fatally with exactly
"Couldn(apostrophe)t get the correct key!" on a missing key and with
exactly "Couldn(apostrophe)t get PDF information! Check your Poppler
version." on a decode/render failure, and every loading exception ends in
such a fatal error with no recovery path. -/
theorem construction_errors_amended :
    Representation.initBackground (Except.error LoadError.keyError) =
      Except.error ("Couldn" ++ sq ++ "t get the correct key!") ∧
    Representation.initBackground (Except.error LoadError.pdfPageCountError) =
      Except.error ("Couldn" ++ sq ++ "t get PDF information! Check your Poppler version.") ∧
    (∀ e : LoadError, ∃ m : String,
      Representation.initBackground (Except.error e) = Except.error m) := by
  refine ⟨rfl, rfl, fun e => ?_⟩
  cases e
  · exact ⟨_, rfl⟩
  · exact ⟨_, rfl⟩

theorem move_region_mod (st : Representation) (i : Nat) (hi : st.selected = some i)
    (ev : KeyEvent) (hs : ¬ ev.state &&& 1 = 0) :
    Representation.move_region st ev = Representation.statusbar_updater st := by
  have hs2 : ¬ ev.state % 2 = 0 := by rwa [Nat.and_one_is_mod] at hs
  simp [Representation.move_region, hi, hs2]

theorem move_region_arrow (st : Representation) (i : Nat) (hi : st.selected = some i)
    (ev : KeyEvent) (hks : isArrowKeysym ev.keysym) (hs : ev.state &&& 1 = 0) :
    Representation.move_region st ev =
      Representation.statusbar_updater (withRegions st (movedAt st i ev.keysym)) := by
  have hs2 : ev.state % 2 = 0 := by rwa [Nat.and_one_is_mod] at hs
  rcases hks with h | h | h | h <;>
    simp [Representation.move_region, hi, h, hs2, arrowDelta, withRegions, movedAt]

theorem resize_region_plain (st : Representation) (i : Nat) (hi : st.selected = some i)
    (ev : KeyEvent) (hs : ev.state &&& 1 = 0) :
    Representation.resize_region st ev = some st := by
  have hs2 : ev.state % 2 = 0 := by rwa [Nat.and_one_is_mod] at hs
  simp [Representation.resize_region, hi, hs2]

theorem resize_region_arrow (st : Representation) (i : Nat) (hi : st.selected = some i)
    (ev : KeyEvent) (hks : isArrowKeysym ev.keysym) (hs : ¬ ev.state &&& 1 = 0) :
    Representation.resize_region st ev =
      some (withRegions st (resizedAt st i ev.keysym true)) := by
  have hs2 : ¬ ev.state % 2 = 0 := by rwa [Nat.and_one_is_mod] at hs
  rcases hks with h | h | h | h <;>
    simp [Representation.resize_region, hi, h, hs2, arrowDelta, withRegions, resizedAt]

theorem resize_extended_arrow (st : Representation) (i : Nat) (hi : st.selected = some i)
    (ev : KeyEvent) (hks : isArrowKeysym ev.keysym) :
    Representation.resize_extended st ev =
      Representation.statusbar_updater (withRegions st (resizedAt st i ev.keysym false)) := by
  rcases hks with h | h | h | h <;>
    simp [Representation.resize_extended, hi, h, arrowDelta, withRegions, resizedAt]

theorem resize_extended_other (st : Representation) (i : Nat) (hi : st.selected = some i)
    (ev : KeyEvent) (hks : ¬ isArrowKeysym ev.keysym) :
    Representation.resize_extended st ev = Representation.statusbar_updater st := by
  have h1 : ¬ ev.keysym = ("Right") := fun h => hks (Or.inl h)
  have h2 : ¬ ev.keysym = ("Left") := fun h => hks (Or.inr (Or.inl h))
  have h3 : ¬ ev.keysym = ("Up") := fun h => hks (Or.inr (Or.inr (Or.inl h)))
  have h4 : ¬ ev.keysym = ("Down") := fun h => hks (Or.inr (Or.inr (Or.inr h)))
  simp [Representation.resize_extended, hi, h1, h2, h3, h4]

theorem statusbar_modified (st : Representation) (i : Nat) (r : Region) (L : String)
    (j : Nat) (b : Bool) (rj : Region) (f : Region → Region)
    (hi : st.selected = some i) (hr : st.regions[i]? = some r)
    (hl : statusLabel (f r).inputs = some L)
    (hp : st.sel = some (j, b)) (hj : st.regions[j]? = some rj) :
    Representation.statusbar_updater (withRegions st (modifyAt st.regions i f)) =
      some { withRegions st (modifyAt st.regions i f) with
             statusText := statusTextFor L
               (if b then (if j = i then f r else rj).ext
                else (if j = i then f r else rj).core) } := by
  apply statusbar_spec (withRegions st (modifyAt st.regions i f)) i (f r) L j b
    (if j = i then f r else rj) hi ?_ hl hp ?_
  · show (modifyAt st.regions i f)[i]? = some (f r)
    rw [modifyAt_getElem]
    simp [hr]
  · show (modifyAt st.regions i f)[j]? = some (if j = i then f r else rj)
    rw [modifyAt_getElem]
    by_cases hji : j = i
    · subst hji
      rw [hj] at hr
      injection hr with hr2
      simp [hj, hr2]
    · simp [hji, hj]

/-- Claim C8: bindings exactly equal to the analog-stick group resolve to
the label "Analog Stick", and the list ["x", "y"] resolves to "X, Y"
(names capitalized and joined with ", "). -/
theorem status_label_groups :
    statusLabel (Inputs.dict
      [("up", "analogStickUp"), ("down", "analogStickDown"),
       ("left", "analogStickLeft"), ("right", "analogStickRight")]) =
      some ("Analog Stick") ∧
    statusLabel (Inputs.list [("x"), ("y")]) = some ("X, Y") := by
  constructor <;> rfl

theorem extended_mode_step (st2 : Representation) (i : Nat) (r : Region)
    (hi : st2.selected = some i) (hregs : st2.regions[i]? = some r)
    (hb : st2.arrowBindings = [ArrowHandler.resizeExtended])
    (ev : KeyEvent) (st3 : Representation)
    (h3 : handleArrow st2 ev = some st3) :
    (∀ j : Nat, ∀ rj : Region, st2.regions[j]? = some rj →
      ∃ rj2 : Region, st3.regions[j]? = some rj2 ∧ rj2.core = rj.core) ∧
    (ev.keysym = ("Right") → st3.regions[i]? = some (Region.resize r 1 0 false)) := by
  have h4 : Representation.resize_extended st2 ev = some st3 := by
    have h5 : runHandlers [ArrowHandler.resizeExtended] st2 ev = some st3 := by
      rw [← hb]
      exact h3
    rwa [runHandlers_single] at h5
  by_cases hks : isArrowKeysym ev.keysym
  · rw [resize_extended_arrow st2 i hi ev hks] at h4
    obtain ⟨hregs3, -⟩ := statusbar_fields _ _ h4
    constructor
    · intro j rj hj
      rw [hregs3]
      exact modifyAt_core_preserved st2.regions i j
        (fun r0 => Region.resize r0 (arrowDelta ev.keysym).1 (arrowDelta ev.keysym).2 false)
        (fun r0 => rfl) rj hj
    · intro hR
      rw [hregs3]
      show (resizedAt st2 i ev.keysym false)[i]? = _
      unfold resizedAt
      rw [modifyAt_getElem]
      simp [hregs, hR, arrowDelta]
  · rw [resize_extended_other st2 i hi ev hks] at h4
    obtain ⟨hregs3, -⟩ := statusbar_fields _ _ h4
    constructor
    · intro j rj hj
      refine ⟨rj, ?_, rfl⟩
      rw [hregs3]
      exact hj
    · intro hR
      exact absurd (Or.inl hR) hks

/-- Claim C3, with resize_extended modelled from the spec (the handler is
bound by select_region at src/ui.py line 181 but not defined anywhere in
the source): whenever select_region hits a Region through its extended
rectangle, the four arrow keys are rebound to the extended-only resize
handler alone, and any subsequent arrow event leaves every region core
rectangle unchanged, a Right press resizing the selected extended
rectangle through resize(1, 0, affectCore=false). -/
theorem select_extended_rebinds (st : Representation) (i : Nat) (r : Region)
    (L : String) (ex ey : Int)
    (hr : st.regions[i]? = some r) (hl : statusLabel r.inputs = some L) :
    ∃ st2 : Representation,
      Representation.select_region st (Hit.region i true) ex ey = some st2 ∧
      st2.arrowBindings = [ArrowHandler.resizeExtended] ∧
      st2.selected = some i ∧
      st2.regions = st.regions ∧
      ∀ ev : KeyEvent, ∀ st3 : Representation,
        handleArrow st2 ev = some st3 →
        (∀ j : Nat, ∀ rj : Region, st.regions[j]? = some rj →
          ∃ rj2 : Region, st3.regions[j]? = some rj2 ∧ rj2.core = rj.core) ∧
        (ev.keysym = ("Right") →
          st3.regions[i]? = some (Region.resize r 1 0 false)) := by
  refine ⟨{ st with
      sel := some (i, true)
      selected := some i
      arrowBindings := [ArrowHandler.resizeExtended]
      selectedData := (ex, ey)
      statusText := statusTextFor L r.ext }, ?_, rfl, rfl, rfl, ?_⟩
  · exact statusbar_spec
      { st with
        sel := some (i, true)
        selected := some i
        arrowBindings := [ArrowHandler.resizeExtended]
        selectedData := (ex, ey) }
      i r L i true r rfl hr hl rfl hr
  · intro ev st3 h3
    exact extended_mode_step
      { st with
        sel := some (i, true)
        selected := some i
        arrowBindings := [ArrowHandler.resizeExtended]
        selectedData := (ex, ey)
        statusText := statusTextFor L r.ext }
      i r rfl hr rfl ev st3 h3

/-- Witness for C3 at a concrete state: selecting region 0 through its
extended rectangle installs the extended-only handler binding. -/
theorem select_extended_rebinds_witness :
    ∃ st2 : Representation,
      Representation.select_region stNoSelection (Hit.region 0 true) 15 15 = some st2 ∧
      st2.arrowBindings = [ArrowHandler.resizeExtended] := by
  obtain ⟨st2, h1, h2, h3, h4, h5⟩ :=
    select_extended_rebinds stNoSelection 0 regionA ("A") 15 15 rfl rfl
  exact ⟨st2, h1, h2⟩

/-- Claim C9 as amended: with a region selected, a plain-arrow move
republishes the status text recomputed from the geometry after the move,
and an extended-mode arrow resize (handler modelled from the spec)
republishes it after the resize; but a modifier-held arrow resize in
normal mode publishes the status text computed by move_region before the
resize is applied, so the published text reflects the pre-resize
geometry, resize_region itself never republishing. -/
theorem keyboard_status_amended (st : Representation) (i : Nat) (r : Region)
    (L : String) (j : Nat) (b : Bool) (rj : Region)
    (hi : st.selected = some i) (hr : st.regions[i]? = some r)
    (hl : statusLabel r.inputs = some L)
    (hp : st.sel = some (j, b)) (hj : st.regions[j]? = some rj) :
    (st.arrowBindings = [ArrowHandler.moveRegion, ArrowHandler.resizeRegion] →
      (∀ ev : KeyEvent, isArrowKeysym ev.keysym → ev.state &&& 1 = 0 →
        handleArrow st ev =
          Representation.statusbar_updater (withRegions st (movedAt st i ev.keysym))) ∧
      (∀ ev : KeyEvent, isArrowKeysym ev.keysym → ¬ ev.state &&& 1 = 0 →
        ∃ stA : Representation,
          Representation.statusbar_updater st = some stA ∧
          handleArrow st ev = some (withRegions stA (resizedAt st i ev.keysym true)))) ∧
    (st.arrowBindings = [ArrowHandler.resizeExtended] →
      ∀ ev : KeyEvent, isArrowKeysym ev.keysym →
        handleArrow st ev =
          Representation.statusbar_updater (withRegions st (resizedAt st i ev.keysym false))) := by
  refine ⟨fun hb => ⟨?_, ?_⟩, fun hb ev hks => ?_⟩
  · intro ev hks hs
    have hmr := move_region_arrow st i hi ev hks hs
    have hsb := statusbar_modified st i r L j b rj
      (fun r0 => Region.move r0 (arrowDelta ev.keysym).1 (arrowDelta ev.keysym).2)
      hi hr hl hp hj
    unfold handleArrow
    rw [hb, runHandlers_pair]
    simp only [applyArrowHandler]
    simp only [movedAt] at hmr ⊢
    rw [hmr, hsb]
    dsimp only
    exact resize_region_plain _ i (by exact hi) ev hs
  · intro ev hks hs
    have hmr := move_region_mod st i hi ev hs
    have hsb := statusbar_spec st i r L j b rj hi hr hl hp hj
    refine ⟨_, hsb, ?_⟩
    unfold handleArrow
    conv_lhs => rw [hb, runHandlers_pair]
    simp only [applyArrowHandler]
    conv_lhs => rw [hmr, hsb]
    dsimp only
    exact resize_region_arrow
      { st with statusText := statusTextFor L (if b then rj.ext else rj.core) }
      i hi ev hks hs
  · unfold handleArrow
    rw [hb, runHandlers_single]
    simp only [applyArrowHandler]
    exact resize_extended_arrow st i hi ev hks

/-- Witness for C9 as amended, at the concrete selected state and the
modifier-held Right arrow: the status text published during the event is
the one computed before the resize. -/
theorem keyboard_status_amended_witness :
    ∃ stA : Representation,
      Representation.statusbar_updater stCoreSelected = some stA ∧
      handleArrow stCoreSelected (KeyEvent.mk ("Right") 1) =
        some (withRegions stA (resizedAt stCoreSelected 0 ("Right") true)) :=
  ((keyboard_status_amended stCoreSelected 0 regionA ("A") 0 false regionA
      rfl rfl rfl rfl rfl).1 rfl).2
    (KeyEvent.mk ("Right") 1) (Or.inl rfl) (by decide)

/-- Counterexample to claim C9: at the concrete selected state, the
modifier-held Right arrow resizes the core rectangle to width 21, but the
status text published by the event still reads width 20; republishing
after the geometry change would read width 21, so the status text was not
recomputed after the change. -/
theorem resize_status_stale_cex :
    (handleArrow stCoreSelected (KeyEvent.mk ("Right") 1)).map
        (fun s => s.statusText) = some ("A | X: 10 Y: 10 | W: 20 H: 20") ∧
    ((handleArrow stCoreSelected (KeyEvent.mk ("Right") 1)).bind
        Representation.statusbar_updater).map (fun s => s.statusText) =
      some ("A | X: 10 Y: 10 | W: 21 H: 20") ∧
    ("A | X: 10 Y: 10 | W: 20 H: 20" : String) ≠ ("A | X: 10 Y: 10 | W: 21 H: 20") :=
  ⟨rfl, rfl, by decide⟩

end SkinEditor
